import Mathlib

/-!
Verification development for the SlotSwapper swap-negotiation core.

The definitions below are a shallow embedding of the backend code:
the Event and SwapRequest Mongoose models (schemas, hooks, instance
methods) and the Express route handlers in routes/swaps.js and
routes/events.js.  Users, slots and requests are identified by natural
numbers; instants are milliseconds since the epoch, as in JavaScript
Date values.  Each operation takes the current time and the persisted
state (the two collections) and returns the HTTP-level outcome paired
with the persisted state after the call; error outcomes are produced
before any write, exactly as the guards precede the writes in the
handlers.
-/

deriving instance DecidableEq for Except

namespace SlotSwapper

/-- Status of a calendar slot, from the Event schema enum. -/
inductive SlotStatus where
  | BUSY
  | SWAPPABLE
  | SWAP_PENDING
  deriving DecidableEq, Repr

/-- Status of a swap request, from the SwapRequest schema enum. -/
inductive ReqStatus where
  | PENDING
  | ACCEPTED
  | REJECTED
  | CANCELLED
  deriving DecidableEq, Repr

/-- One entry of the append-only swapHistory array on an event. -/
structure HistEntry where
  swappedWith : Nat
  swappedAt : Nat
  swapRequestId : Nat
  deriving DecidableEq, Repr

/-- A calendar slot: the Event model.  Times are ms since epoch. -/
structure Slot where
  id : Nat
  userId : Nat
  originalUserId : Option Nat
  title : String
  description : String
  startTime : Nat
  endTime : Nat
  status : SlotStatus
  category : String
  location : String
  swapHistory : List HistEntry
  deriving DecidableEq, Repr

/-- A swap request document: the SwapRequest model. -/
structure SwapRequest where
  id : Nat
  mySlotId : Nat
  theirSlotId : Nat
  requestedBy : Nat
  requestedTo : Nat
  status : ReqStatus
  message : String
  responseMessage : String
  respondedAt : Option Nat
  createdAt : Nat
  expiresAt : Nat
  deriving DecidableEq, Repr

/-- The persisted state: the events and swap-requests collections. -/
structure DB where
  events : List Slot
  requests : List SwapRequest
  deriving DecidableEq, Repr

/-- Errors as the routes report them: HTTP 404, 403 and 400 responses,
and thrown errors surfaced by the catch blocks as HTTP 500 with the
thrown message. -/
inductive SwapError where
  | notFound (msg : String)
  | forbidden (msg : String)
  | badRequest (msg : String)
  | internal (msg : String)
  deriving DecidableEq, Repr

/-- Event.findById. -/
def findEvent (db : DB) (id : Nat) : Option Slot :=
  db.events.find? (fun e => e.id == id)

/-- SwapRequest.findById. -/
def findRequest (db : DB) (id : Nat) : Option SwapRequest :=
  db.requests.find? (fun r => r.id == id)

/-- Event.findByIdAndUpdate(id, status): writes only the status field
of the matching document; a missing id is a silent no-op, as in
Mongoose. -/
def updateEventStatus (db : DB) (id : Nat) (st : SlotStatus) : DB :=
  { db with events := db.events.map (fun e => if e.id == id then { e with status := st } else e) }

/-- The replacement write a successful document.save() performs on an
existing event.  Mongoose runs validate-before-save first; that
validation is modelled by validEventDoc and checked at every call
site of this write. -/
def saveEvent (db : DB) (e : Slot) : DB :=
  { db with events := db.events.map (fun x => if x.id == e.id then e else x) }

/-- Event.findByIdAndDelete. -/
def removeEvent (db : DB) (id : Nat) : DB :=
  { db with events := db.events.filter (fun x => !(x.id == id)) }

/-- Insertion of a new swap-request document. -/
def insertRequest (db : DB) (r : SwapRequest) : DB :=
  { db with requests := db.requests ++ [r] }

/-- document.save() on an existing swap request. -/
def saveRequest (db : DB) (r : SwapRequest) : DB :=
  { db with requests := db.requests.map (fun x => if x.id == r.id then r else x) }

/-- The category values the Event schema enum and the validators
accept. -/
def categoryAllowed (c : String) : Bool :=
  c == "work" || c == "personal" || c == "meeting" || c == "appointment" || c == "other"

/-- Mongoose validate-before-save on an Event document: the schema
validates the whole document on save(), running the length bounds,
the category whitelist, and the custom validators, in particular that
startTime is still strictly in the future and that endTime is after
startTime.  A failing path makes save() throw a ValidationError; the
thrown message is abbreviated in this model to its common prefix. -/
def validEventDoc (now : Nat) (e : Slot) : Bool :=
  decide (1 ≤ e.title.length) && decide (e.title.length ≤ 100) &&
  decide (e.description.length ≤ 500) &&
  decide (now < e.startTime) && decide (e.startTime < e.endTime) &&
  categoryAllowed e.category &&
  decide (e.location.length ≤ 200)

/-- The duplicate-pending pre-check of POST /api/swap/request: a
PENDING request over the same slot pair in either direction. -/
def existsPendingBetween (db : DB) (a b : Nat) : Bool :=
  db.requests.any (fun r =>
    (r.mySlotId == a && r.theirSlotId == b && decide (r.status = ReqStatus.PENDING)) ||
    (r.mySlotId == b && r.theirSlotId == a && decide (r.status = ReqStatus.PENDING)))

/-- The unique partial index of the SwapRequest schema: key
(mySlotId, theirSlotId, status) restricted to documents with status
PENDING.  A collection satisfies it when no two entries at different
positions share the ordered key. -/
def pendingPairsOk : List SwapRequest → Bool
  | [] => true
  | r :: rs =>
      (if r.status = ReqStatus.PENDING then
        rs.all (fun q => !(decide (q.status = ReqStatus.PENDING) &&
          q.mySlotId == r.mySlotId && q.theirSlotId == r.theirSlotId))
      else true) && pendingPairsOk rs

/-- swapRequestSchema.methods.accept: guarded by the pending and
expiry checks of the method, then one transaction that re-reads both
slots, exchanges their userId fields, sets both to BUSY, appends the
swapHistory entries exactly as the source computes them after the
exchange, and saves the request as ACCEPTED.  Each slot save runs
validate-before-save (validEventDoc); a failing validation throws and
aborts the transaction, surfacing through the route catch as a 500.
The whole transaction is one atomic write; an error aborts it and
leaves the state unchanged. -/
def SwapRequest.accept (r : SwapRequest) (now : Nat) (responseMessage : String) (db : DB) :
    Except SwapError SwapRequest × DB :=
  if r.status ≠ ReqStatus.PENDING then (.error (.internal "Request is no longer pending"), db)
  else if r.expiresAt < now then (.error (.internal "Request has expired"), db)
  else
    match findEvent db r.mySlotId, findEvent db r.theirSlotId with
    | some mySlot, some theirSlot =>
        let newMy : Slot := { mySlot with
          userId := theirSlot.userId
          status := SlotStatus.BUSY
          swapHistory := mySlot.swapHistory ++
            [{ swappedWith := theirSlot.userId, swappedAt := now, swapRequestId := r.id }] }
        let newTheir : Slot := { theirSlot with
          userId := mySlot.userId
          status := SlotStatus.BUSY
          swapHistory := theirSlot.swapHistory ++
            [{ swappedWith := mySlot.userId, swappedAt := now, swapRequestId := r.id }] }
        let r1 : SwapRequest := { r with
          status := ReqStatus.ACCEPTED
          responseMessage := responseMessage
          respondedAt := some now }
        if validEventDoc now newMy = true ∧ validEventDoc now newTheir = true then
          (.ok r1, saveRequest (saveEvent (saveEvent db newMy) newTheir) r1)
        else (.error (.internal "Event validation failed"), db)
    | _, _ => (.error (.internal "One or both slots no longer exist"), db)

/-- swapRequestSchema.methods.reject: pending check, then the two
slot-status reverts to SWAPPABLE, then the request saved as
REJECTED. -/
def SwapRequest.reject (r : SwapRequest) (now : Nat) (responseMessage : String) (db : DB) :
    Except SwapError SwapRequest × DB :=
  if r.status ≠ ReqStatus.PENDING then (.error (.internal "Request is no longer pending"), db)
  else
    let r1 : SwapRequest := { r with
      status := ReqStatus.REJECTED
      responseMessage := responseMessage
      respondedAt := some now }
    (.ok r1,
      saveRequest (updateEventStatus (updateEventStatus db r.mySlotId SlotStatus.SWAPPABLE)
        r.theirSlotId SlotStatus.SWAPPABLE) r1)

/-- swapRequestSchema.methods.cancel: pending check, then the two
slot-status reverts to SWAPPABLE, then the request saved as
CANCELLED.  No expiry check appears in the source. -/
def SwapRequest.cancel (r : SwapRequest) (now : Nat) (db : DB) :
    Except SwapError SwapRequest × DB :=
  if r.status ≠ ReqStatus.PENDING then (.error (.internal "Request is no longer pending"), db)
  else
    let r1 : SwapRequest := { r with
      status := ReqStatus.CANCELLED
      respondedAt := some now }
    (.ok r1,
      saveRequest (updateEventStatus (updateEventStatus db r.mySlotId SlotStatus.SWAPPABLE)
        r.theirSlotId SlotStatus.SWAPPABLE) r1)

/-- SwapRequest.save() on a new document: the pre-save validations of
the schema, the duplicate-key check of the unique partial index on the
ordered key (mySlotId, theirSlotId, PENDING), the insert, and the
post-save hook that sets both referenced slots to SWAP_PENDING for a
newly created PENDING request. -/
def saveNewSwapRequest (now : Nat) (db : DB) (r : SwapRequest) : Except SwapError Unit × DB :=
  match findEvent db r.mySlotId, findEvent db r.theirSlotId with
  | some mySlot, some theirSlot =>
      if mySlot.userId ≠ r.requestedBy then (.error (.internal "You can only swap your own slots"), db)
      else if theirSlot.userId ≠ r.requestedTo then (.error (.internal "Invalid target slot owner"), db)
      else if mySlot.status ≠ SlotStatus.SWAPPABLE then (.error (.internal "Your slot must be swappable"), db)
      else if theirSlot.status ≠ SlotStatus.SWAPPABLE then (.error (.internal "Target slot must be swappable"), db)
      else if mySlot.startTime ≤ now ∨ theirSlot.startTime ≤ now then (.error (.internal "Cannot swap past events"), db)
      else if r.status = ReqStatus.PENDING ∧ db.requests.any (fun q =>
          decide (q.status = ReqStatus.PENDING) && q.mySlotId == r.mySlotId &&
          q.theirSlotId == r.theirSlotId) = true then
        (.error (.internal "duplicate key"), db)
      else
        let db1 := insertRequest db r
        if r.status = ReqStatus.PENDING then
          (.ok (), updateEventStatus (updateEventStatus db1 r.mySlotId SlotStatus.SWAP_PENDING)
            r.theirSlotId SlotStatus.SWAP_PENDING)
        else (.ok (), db1)
  | _, _ => (.error (.internal "One or both slots do not exist"), db)

/-- POST /api/swap/request: the guard chain of the handler in source
order, then the construction of the new document (status defaults to
PENDING, expiresAt defaults to creation time plus 7 days =
604800000 ms) and its save.  The message argument stands for the
request body field after the validator sanitizers, which have already
trimmed it, so the trim in the handler is the identity and is not
repeated here.  A thrown duplicate-key error is mapped to the 400
duplicate response; any other thrown error to the generic 500
response. -/
def createSwapRequest (now : Nat) (db : DB) (requestedBy mySlotId theirSlotId : Nat)
    (message : String) (newId : Nat) : Except SwapError SwapRequest × DB :=
  if mySlotId = theirSlotId then (.error (.badRequest "Cannot swap a slot with itself"), db)
  else
    match findEvent db mySlotId, findEvent db theirSlotId with
    | none, _ => (.error (.notFound "One or both slots not found"), db)
    | some _, none => (.error (.notFound "One or both slots not found"), db)
    | some mySlot, some theirSlot =>
        if mySlot.userId ≠ requestedBy then (.error (.forbidden "You can only swap your own slots"), db)
        else if theirSlot.userId = requestedBy then (.error (.badRequest "Cannot swap with your own slot"), db)
        else if mySlot.status ≠ SlotStatus.SWAPPABLE then (.error (.badRequest "Your slot must be marked as swappable"), db)
        else if theirSlot.status ≠ SlotStatus.SWAPPABLE then (.error (.badRequest "Target slot is not available for swapping"), db)
        else if mySlot.startTime ≤ now ∨ theirSlot.startTime ≤ now then (.error (.badRequest "Cannot swap past events"), db)
        else if existsPendingBetween db mySlotId theirSlotId then
          (.error (.badRequest "A pending swap request already exists for these slots"), db)
        else
          let r : SwapRequest :=
            { id := newId
              mySlotId := mySlotId
              theirSlotId := theirSlotId
              requestedBy := requestedBy
              requestedTo := theirSlot.userId
              status := ReqStatus.PENDING
              message := message
              responseMessage := ""
              respondedAt := none
              createdAt := now
              expiresAt := now + 604800000 }
          let sres := saveNewSwapRequest now db r
          match sres.1 with
          | .ok _ => (.ok r, sres.2)
          | .error e =>
              ((if e = SwapError.internal "duplicate key" then
                  .error (.badRequest "A pending swap request already exists for these slots")
                else .error (.internal "Failed to create swap request")), sres.2)

/-- POST /api/swap/response/:requestId: lookup, recipient
authorization, pending, expiry, slot existence and slot SWAP_PENDING
guards in source order, then the accept or reject method with the
response message (already trimmed by the validator sanitizers, so the
trim in the handler is the identity and is not repeated here). -/
def respondToSwap (now : Nat) (db : DB) (requestId userId : Nat) (acceptAction : Bool)
    (message : String) : Except SwapError SwapRequest × DB :=
  match findRequest db requestId with
  | none => (.error (.notFound "Swap request not found"), db)
  | some r =>
      if r.requestedTo ≠ userId then
        (.error (.forbidden "You are not authorized to respond to this request"), db)
      else if r.status ≠ ReqStatus.PENDING then
        (.error (.badRequest "Request has already been responded to"), db)
      else if r.expiresAt < now then (.error (.badRequest "Request has expired"), db)
      else
        match findEvent db r.mySlotId, findEvent db r.theirSlotId with
        | some a, some b =>
            if a.status ≠ SlotStatus.SWAP_PENDING ∨ b.status ≠ SlotStatus.SWAP_PENDING then
              (.error (.badRequest "Slots are no longer in pending swap state"), db)
            else if acceptAction then r.accept now message db
            else r.reject now message db
        | _, _ => (.error (.badRequest "One or both slots no longer exist"), db)

/-- POST /api/swap/cancel/:requestId: lookup, requester authorization
and pending guards, then the cancel method.  The handler has no expiry
guard. -/
def cancelSwapRequest (now : Nat) (db : DB) (requestId userId : Nat) :
    Except SwapError SwapRequest × DB :=
  match findRequest db requestId with
  | none => (.error (.notFound "Swap request not found"), db)
  | some r =>
      if r.requestedBy ≠ userId then
        (.error (.forbidden "You are not authorized to cancel this request"), db)
      else if r.status ≠ ReqStatus.PENDING then
        (.error (.badRequest "Can only cancel pending requests"), db)
      else r.cancel now db

/-- The status values admitted by the PATCH /api/events/:id/status
validator. -/
inductive PatchStatus where
  | BUSY
  | SWAPPABLE
  deriving DecidableEq, Repr

/-- The slot status a validated patch value denotes. -/
def PatchStatus.toSlotStatus : PatchStatus → SlotStatus
  | .BUSY => SlotStatus.BUSY
  | .SWAPPABLE => SlotStatus.SWAPPABLE

/-- The sanitized update payload of PUT /api/events/:id, holding the
fields the validateEventUpdate chain accepts (all optional; string
fields already trimmed by the validator sanitizers). -/
structure UpdateData where
  title : Option String := none
  description : Option String := none
  startTime : Option Nat := none
  endTime : Option Nat := none
  status : Option PatchStatus := none
  category : Option String := none
  location : Option String := none
  deriving DecidableEq, Repr

/-- validateEventUpdate: length bounds on the provided string fields,
the category whitelist, and the custom future check on a provided
startTime.  A provided endTime carries no constraint of its own. -/
def validUpdatePayload (now : Nat) (u : UpdateData) : Bool :=
  (match u.title with | some s => decide (1 ≤ s.length ∧ s.length ≤ 100) | none => true) &&
  (match u.description with | some s => decide (s.length ≤ 500) | none => true) &&
  (match u.startTime with | some t => decide (now < t) | none => true) &&
  (match u.category with | some c => categoryAllowed c | none => true) &&
  (match u.location with | some s => decide (s.length ≤ 200) | none => true)

/-- The update loop of PUT /api/events/:id: every provided field is
written onto the document. -/
def applyUpdate (e : Slot) (u : UpdateData) : Slot :=
  { e with
    title := u.title.getD e.title
    description := u.description.getD e.description
    startTime := u.startTime.getD e.startTime
    endTime := u.endTime.getD e.endTime
    status := match u.status with | some ps => ps.toSlotStatus | none => e.status
    category := u.category.getD e.category
    location := u.location.getD e.location }

/-- checkTimeConflicts: another event of the same user, other than the
excluded one, whose interval overlaps [ns, ne). -/
def timeConflicts (db : DB) (userId ns ne excludeId : Nat) : Bool :=
  db.events.any (fun ev =>
    ev.userId == userId && !(ev.id == excludeId) &&
    decide (ev.startTime < ne) && decide (ns < ev.endTime))

/-- PUT /api/events/:id: ownership middleware, payload validation,
the SWAP_PENDING freeze guard, the time checks when a time field is
provided, then the field-by-field update and the save, whose
validate-before-save (validEventDoc) surfaces as the catch-all 500 of
the handler when it fails. -/
def putEventRoute (now : Nat) (db : DB) (uid eid : Nat) (u : UpdateData) :
    Except SwapError Slot × DB :=
  match findEvent db eid with
  | none => (.error (.notFound "Event not found"), db)
  | some e =>
      if e.userId ≠ uid then
        (.error (.forbidden "Access denied - you do not own this resource"), db)
      else if validUpdatePayload now u = false then (.error (.badRequest "Validation failed"), db)
      else if e.status = SlotStatus.SWAP_PENDING then
        (.error (.badRequest "Cannot update event while swap is pending"), db)
      else
        let ns := u.startTime.getD e.startTime
        let ne := u.endTime.getD e.endTime
        if u.startTime.isSome ∨ u.endTime.isSome then
          if ne ≤ ns then (.error (.badRequest "End time must be after start time"), db)
          else if timeConflicts db e.userId ns ne e.id then
            (.error (.badRequest "Time conflict detected with existing events"), db)
          else
            let e1 := applyUpdate e u
            if validEventDoc now e1 = false then
              (.error (.internal "Failed to update event"), db)
            else (.ok e1, saveEvent db e1)
        else
          let e1 := applyUpdate e u
          if validEventDoc now e1 = false then
            (.error (.internal "Failed to update event"), db)
          else (.ok e1, saveEvent db e1)

/-- DELETE /api/events/:id: ownership middleware, the SWAP_PENDING
freeze guard, then the delete. -/
def deleteEventRoute (db : DB) (uid eid : Nat) : Except SwapError Unit × DB :=
  match findEvent db eid with
  | none => (.error (.notFound "Event not found"), db)
  | some e =>
      if e.userId ≠ uid then
        (.error (.forbidden "Access denied - you do not own this resource"), db)
      else if e.status = SlotStatus.SWAP_PENDING then
        (.error (.badRequest "Cannot delete event while swap is pending"), db)
      else (.ok (), removeEvent db eid)

/-- PATCH /api/events/:id/status: ownership middleware, the validated
status value, the SWAP_PENDING freeze guard, the past-start guard,
then the status write and its save, whose validate-before-save
surfaces as the catch-all 500 of the handler when it fails. -/
def patchEventStatusRoute (now : Nat) (db : DB) (uid eid : Nat) (ps : PatchStatus) :
    Except SwapError Slot × DB :=
  match findEvent db eid with
  | none => (.error (.notFound "Event not found"), db)
  | some e =>
      if e.userId ≠ uid then
        (.error (.forbidden "Access denied - you do not own this resource"), db)
      else if e.status = SlotStatus.SWAP_PENDING then
        (.error (.badRequest "Cannot change status while swap is pending"), db)
      else if e.startTime ≤ now then
        (.error (.badRequest "Cannot change status of past events"), db)
      else
        let e1 := { e with status := ps.toSlotStatus }
        if validEventDoc now e1 = false then
          (.error (.internal "Failed to update event status"), db)
        else (.ok e1, saveEvent db e1)

/-- The string form of a stored request status, as the query filter
compares it. -/
def reqStatusString : ReqStatus → String
  | .PENDING => "PENDING"
  | .ACCEPTED => "ACCEPTED"
  | .REJECTED => "REJECTED"
  | .CANCELLED => "CANCELLED"

/-- The status values the GET /api/swap/incoming validator accepts. -/
def incomingStatusAllowed (s : String) : Bool :=
  s == "PENDING" || s == "ACCEPTED" || s == "REJECTED"

/-- The status values the GET /api/swap/outgoing validator accepts. -/
def outgoingStatusAllowed (s : String) : Bool :=
  s == "PENDING" || s == "ACCEPTED" || s == "REJECTED" || s == "CANCELLED"

/-- GET /api/swap/incoming: validator on the optional status filter,
then the query: requests addressed to the user, with the given status
when a filter is present, and defaulting to PENDING and unexpired
otherwise.  Sorting and pagination of the handler are not modelled:
the full match set is returned. -/
def listIncoming (now : Nat) (db : DB) (uid : Nat) (filt : Option String) :
    Except SwapError (List SwapRequest) :=
  match filt with
  | some s =>
      if incomingStatusAllowed s then
        .ok (db.requests.filter (fun r => r.requestedTo == uid && reqStatusString r.status == s))
      else .error (.badRequest "Validation failed")
  | none =>
      .ok (db.requests.filter (fun r =>
        r.requestedTo == uid && decide (r.status = ReqStatus.PENDING) && decide (now < r.expiresAt)))

/-- GET /api/swap/outgoing: validator on the optional status filter,
then the query: requests made by the user, restricted to the given
status when a filter is present.  Sorting and pagination are not
modelled. -/
def listOutgoing (db : DB) (uid : Nat) (filt : Option String) :
    Except SwapError (List SwapRequest) :=
  match filt with
  | some s =>
      if outgoingStatusAllowed s then
        .ok (db.requests.filter (fun r => r.requestedBy == uid && reqStatusString r.status == s))
      else .error (.badRequest "Validation failed")
  | none => .ok (db.requests.filter (fun r => r.requestedBy == uid))

/-- A command arriving at the API layer: every state-mutating
operation of the embedded system. -/
inductive Op where
  | createReq (requestedBy mySlotId theirSlotId : Nat) (message : String) (newId : Nat)
  | respond (requestId userId : Nat) (acceptAction : Bool) (message : String)
  | cancelReq (requestId userId : Nat)
  | putEvent (userId eventId : Nat) (upd : UpdateData)
  | delEvent (userId eventId : Nat)
  | patchEventStatus (userId eventId : Nat) (newStatus : PatchStatus)
  deriving Repr

/-- The persisted state after one operation. -/
def step (now : Nat) (db : DB) : Op → DB
  | .createReq b a c m n => (createSwapRequest now db b a c m n).2
  | .respond rid uid acc m => (respondToSwap now db rid uid acc m).2
  | .cancelReq rid uid => (cancelSwapRequest now db rid uid).2
  | .putEvent uid eid u => (putEventRoute now db uid eid u).2
  | .delEvent uid eid => (deleteEventRoute db uid eid).2
  | .patchEventStatus uid eid st => (patchEventStatusRoute now db uid eid st).2

/-- The operations that resolve a pending request: accept or reject
through the response handler, or cancel through the cancel handler. -/
def Op.isNegotiatorResolution : Op → Bool
  | .respond _ _ _ _ => true
  | .cancelReq _ _ => true
  | _ => false

/-- Applies the first k of a list of persistence steps: the state an
execution that stops (crashes or fails) after k storage writes leaves
behind. -/
def applyUpTo (steps : List (DB → DB)) (k : Nat) (db : DB) : DB :=
  (steps.take k).foldl (fun d f => f d) db

/-- One storage write inserting a new request document. -/
def insertRequestStep (r : SwapRequest) : DB → DB := fun db => insertRequest db r

/-- One storage write setting a slot status. -/
def setSlotStatusStep (sid : Nat) (st : SlotStatus) : DB → DB :=
  fun db => updateEventStatus db sid st

/-- One storage write saving a request document. -/
def saveRequestStep (r : SwapRequest) : DB → DB := fun db => saveRequest db r

/-- The storage writes of a create, in source order: the save of the
new PENDING document, then the two slot updates of the post-save hook.
They are three separate operations; no transaction encloses them. -/
def createPersistSteps (r : SwapRequest) : List (DB → DB) :=
  [insertRequestStep r,
   setSlotStatusStep r.mySlotId SlotStatus.SWAP_PENDING,
   setSlotStatusStep r.theirSlotId SlotStatus.SWAP_PENDING]

/-- The storage writes of a reject, in source order: the two slot
reverts, then the save of the REJECTED document.  No transaction. -/
def rejectPersistSteps (r : SwapRequest) (now : Nat) (msg : String) : List (DB → DB) :=
  [setSlotStatusStep r.mySlotId SlotStatus.SWAPPABLE,
   setSlotStatusStep r.theirSlotId SlotStatus.SWAPPABLE,
   saveRequestStep { r with
     status := ReqStatus.REJECTED
     responseMessage := msg
     respondedAt := some now }]

/-- The storage writes of a cancel, in source order: the two slot
reverts, then the save of the CANCELLED document.  No transaction. -/
def cancelPersistSteps (r : SwapRequest) (now : Nat) : List (DB → DB) :=
  [setSlotStatusStep r.mySlotId SlotStatus.SWAPPABLE,
   setSlotStatusStep r.theirSlotId SlotStatus.SWAPPABLE,
   saveRequestStep { r with status := ReqStatus.CANCELLED, respondedAt := some now }]

/-- The storage writes of an accept: the method wraps every write in
session.withTransaction, so the whole transition is a single atomic
commit. -/
def acceptPersistSteps (r : SwapRequest) (now : Nat) (msg : String) : List (DB → DB) :=
  [fun db => (SwapRequest.accept r now msg db).2]

end SlotSwapper

namespace SlotSwapper

/-! Concrete states used by witnesses and counterexamples. -/

/-- A future slot of user 10, open for swapping. -/
def slotOpenA : Slot :=
  { id := 1
    userId := 10
    originalUserId := some 10
    title := "A"
    description := ""
    startTime := 2000
    endTime := 3000
    status := SlotStatus.SWAPPABLE
    category := "other"
    location := ""
    swapHistory := [] }

/-- A future slot of user 20, open for swapping. -/
def slotOpenB : Slot :=
  { id := 2
    userId := 20
    originalUserId := some 20
    title := "B"
    description := ""
    startTime := 2500
    endTime := 3500
    status := SlotStatus.SWAPPABLE
    category := "work"
    location := ""
    swapHistory := [] }

/-- slotOpenA frozen by a pending swap. -/
def slotPendA : Slot := { slotOpenA with status := SlotStatus.SWAP_PENDING }

/-- slotOpenB frozen by a pending swap. -/
def slotPendB : Slot := { slotOpenB with status := SlotStatus.SWAP_PENDING }

/-- A frozen slot whose start instant (500) is already in the past at
the reference instant 1000. -/
def slotPastPendA : Slot := { slotPendA with startTime := 500, endTime := 800 }

/-- A pending request of user 10 offering slot 1 for slot 2 of
user 20, not yet expired at instant 1000. -/
def reqAB : SwapRequest :=
  { id := 5
    mySlotId := 1
    theirSlotId := 2
    requestedBy := 10
    requestedTo := 20
    status := ReqStatus.PENDING
    message := "hi"
    responseMessage := ""
    respondedAt := none
    createdAt := 0
    expiresAt := 604800000 }

/-- reqAB already past its expiry at instant 1000. -/
def reqExp : SwapRequest := { reqAB with expiresAt := 500 }

/-- The reverse-direction pending request over the same slot pair. -/
def reqBA : SwapRequest :=
  { reqAB with id := 6, mySlotId := 2, theirSlotId := 1, requestedBy := 20, requestedTo := 10 }

/-- Two open future slots, no requests. -/
def dbFresh : DB := { events := [slotOpenA, slotOpenB], requests := [] }

/-- A live pending swap: both slots frozen, one pending request. -/
def dbPending : DB := { events := [slotPendA, slotPendB], requests := [reqAB] }

/-- A pending swap whose request has expired. -/
def dbExpired : DB := { events := [slotPendA, slotPendB], requests := [reqExp] }

/-- A pending swap whose first slot has already started. -/
def dbPastPending : DB := { events := [slotPastPendA, slotPendB], requests := [reqAB] }

/-- Pending requests in both directions over the slot pair 1, 2. -/
def dbBothDirections : DB := { events := [slotPendA, slotPendB], requests := [reqAB, reqBA] }

/-! List-level helper lemmas about lookups after the storage writes. -/

theorem find?_map_of_id {g : Slot → Slot} (hg : ∀ x, (g x).id = x.id)
    (l : List Slot) (j : Nat) :
    (l.map g).find? (fun e => e.id == j) = (l.find? (fun e => e.id == j)).map g := by
  induction l with
  | nil => rfl
  | cons a t ih =>
      simp only [List.map_cons, List.find?, hg a]
      cases h : (a.id == j)
      · simpa [h] using ih
      · simp [h]

theorem find?_filter_keep {p q : Slot → Bool} (h : ∀ x, p x = true → q x = true) :
    ∀ l : List Slot, (l.filter q).find? p = l.find? p := by
  intro l
  induction l with
  | nil => rfl
  | cons a t ih =>
      cases hq : q a
      · have hp : p a = false := by
          cases hpa : p a
          · rfl
          · have := h a hpa
            rw [hq] at this
            exact absurd this (by simp)
        simp [List.filter_cons, hq, List.find?, hp, ih]
      · simp only [List.filter_cons, hq, if_true, List.find?]
        cases hpa : p a
        · simpa [hpa] using ih
        · simp [hpa]

theorem findEvent_id {db : DB} {j : Nat} {e : Slot} (h : findEvent db j = some e) : e.id = j := by
  unfold findEvent at h
  have := List.find?_some h
  simpa using this

theorem findRequest_id {db : DB} {j : Nat} {r : SwapRequest}
    (h : findRequest db j = some r) : r.id = j := by
  unfold findRequest at h
  have := List.find?_some h
  simpa using this

theorem findEvent_updateEventStatus (db : DB) (i : Nat) (st : SlotStatus) (j : Nat) :
    findEvent (updateEventStatus db i st) j =
      (findEvent db j).map (fun e => if e.id == i then { e with status := st } else e) := by
  simp only [findEvent, updateEventStatus]
  exact find?_map_of_id (fun x => by by_cases h : x.id = i <;> simp [h]) _ _

theorem findEvent_saveEvent (db : DB) (x : Slot) (j : Nat) :
    findEvent (saveEvent db x) j =
      (findEvent db j).map (fun e => if e.id == x.id then x else e) := by
  simp only [findEvent, saveEvent]
  exact find?_map_of_id (fun e => by by_cases h : e.id = x.id <;> simp [h]) _ _

theorem findEvent_removeEvent (db : DB) (i j : Nat) (hij : j ≠ i) :
    findEvent (removeEvent db i) j = findEvent db j := by
  simp only [findEvent, removeEvent]
  apply find?_filter_keep
  intro x hx
  simp only [beq_iff_eq] at hx
  simp [hx, hij]

theorem findEvent_insertRequest (db : DB) (r : SwapRequest) (j : Nat) :
    findEvent (insertRequest db r) j = findEvent db j := rfl

theorem findEvent_saveRequest (db : DB) (r : SwapRequest) (j : Nat) :
    findEvent (saveRequest db r) j = findEvent db j := rfl

theorem findRequest_updateEventStatus (db : DB) (i : Nat) (st : SlotStatus) (j : Nat) :
    findRequest (updateEventStatus db i st) j = findRequest db j := rfl

theorem findRequest_saveEvent (db : DB) (x : Slot) (j : Nat) :
    findRequest (saveEvent db x) j = findRequest db j := rfl

end SlotSwapper

namespace SlotSwapper

/-! Further helper lemmas shared by the claim theorems. -/

theorem findEvent_double_update (db : DB) (i j sid : Nat) (st : SlotStatus) :
    findEvent (updateEventStatus (updateEventStatus db i st) j st) sid =
      (findEvent db sid).map (fun e =>
        if sid = i ∨ sid = j then { e with status := st } else e) := by
  rw [findEvent_updateEventStatus, findEvent_updateEventStatus]
  cases h : findEvent db sid with
  | none => rfl
  | some e =>
      have hid : e.id = sid := findEvent_id h
      subst hid
      simp only [Option.map_some']
      congr 1
      by_cases h1 : e.id = i
      · rw [if_pos (show (e.id == i) = true by simp [h1])]
        by_cases h2 : e.id = j
        · rw [if_pos (show (({ e with status := st } : Slot).id == j) = true by simp [h2])]
          simp [h1]
        · rw [if_neg (show ¬ (({ e with status := st } : Slot).id == j) = true by simp [h2])]
          simp [h1]
      · rw [if_neg (show ¬ (e.id == i) = true by simp [h1])]
        by_cases h2 : e.id = j
        · rw [if_pos (show (e.id == j) = true by simp [h2])]
          simp [h2]
        · rw [if_neg (show ¬ (e.id == j) = true by simp [h2])]
          simp [h1, h2]

end SlotSwapper

namespace SlotSwapper

/-- Claim C10: the incoming-requests endpoint rejects the status
filter value CANCELLED with a validation error (its validator permits
only PENDING, ACCEPTED and REJECTED) while the outgoing endpoint also
permits CANCELLED, and listIncoming never returns a CANCELLED request:
not under any filter value its validator accepts and not under the
default (no-filter) query. -/
theorem c10_incoming_never_returns_cancelled :
    (∀ (now : Nat) (db : DB) (uid : Nat),
      listIncoming now db uid (some "CANCELLED") = .error (.badRequest "Validation failed")) ∧
    outgoingStatusAllowed "CANCELLED" = true ∧
    (∀ (db : DB) (uid : Nat), ∃ rs, listOutgoing db uid (some "CANCELLED") = .ok rs) ∧
    (∀ (now : Nat) (db : DB) (uid : Nat) (filt : Option String) (rs : List SwapRequest),
      listIncoming now db uid filt = .ok rs → ∀ r ∈ rs, r.status ≠ ReqStatus.CANCELLED) := by
  refine ⟨?_, by decide, ?_, ?_⟩
  · intro now db uid
    simp [listIncoming, show incomingStatusAllowed "CANCELLED" = false from by decide]
  · intro db uid
    refine ⟨db.requests.filter
      (fun r => r.requestedBy == uid && reqStatusString r.status == "CANCELLED"), ?_⟩
    simp [listOutgoing, show outgoingStatusAllowed "CANCELLED" = true from by decide]
  · intro now db uid filt rs h r hr hcanc
    cases filt with
    | none =>
        simp only [listIncoming, Except.ok.injEq] at h
        subst h
        rw [List.mem_filter] at hr
        have hpred := hr.2
        simp [hcanc] at hpred
    | some s =>
        by_cases hall : incomingStatusAllowed s = true
        · simp only [listIncoming, hall, if_true, Except.ok.injEq] at h
          subst h
          rw [List.mem_filter] at hr
          have hpred := hr.2
          simp only [Bool.and_eq_true, beq_iff_eq] at hpred
          rw [hcanc] at hpred
          have hs : s = "CANCELLED" := hpred.2.symm
          rw [hs] at hall
          exact absurd hall (by decide)
        · simp only [listIncoming] at h
          rw [if_neg hall] at h
          cases h

/-- Claim C2, counterexample: reject persists its slot side effects
and its request mutation as separate storage writes; the execution
that stops after the two slot writes leaves a state, different from
both the initial and the final one, in which both slots are already
SWAPPABLE while the request is still PENDING. -/
theorem c2_counterexample_reject_not_atomic :
    applyUpTo (rejectPersistSteps reqAB 1000 "no") 2 dbPending ≠ dbPending ∧
    applyUpTo (rejectPersistSteps reqAB 1000 "no") 2 dbPending ≠
      applyUpTo (rejectPersistSteps reqAB 1000 "no") 3 dbPending ∧
    findRequest (applyUpTo (rejectPersistSteps reqAB 1000 "no") 2 dbPending) 5 = some reqAB ∧
    (findEvent (applyUpTo (rejectPersistSteps reqAB 1000 "no") 2 dbPending) 1).map Slot.status =
      some SlotStatus.SWAPPABLE := by
  exact ⟨by decide, by decide, by decide, by decide⟩

/-- Claim C2 amended: the accept transition persists atomically (its
writes form one transactional commit, so every stopped execution
shows the initial or the final state), while create, reject and
cancel persist the request write and the two slot writes separately:
for each of them a stopped execution exhibits one side of the
transition without the other. -/
theorem c2_only_accept_persists_atomically :
    (∀ (r : SwapRequest) (now : Nat) (msg : String) (db : DB) (k : Nat),
      k ≤ (acceptPersistSteps r now msg).length →
      applyUpTo (acceptPersistSteps r now msg) k db = db ∨
      applyUpTo (acceptPersistSteps r now msg) k db =
        applyUpTo (acceptPersistSteps r now msg) (acceptPersistSteps r now msg).length db) ∧
    (findRequest (applyUpTo (createPersistSteps reqAB) 1 dbFresh) 5 = some reqAB ∧
      (findEvent (applyUpTo (createPersistSteps reqAB) 1 dbFresh) 1).map Slot.status =
        some SlotStatus.SWAPPABLE) ∧
    ((findEvent (applyUpTo (cancelPersistSteps reqAB 1000) 2 dbPending) 1).map Slot.status =
        some SlotStatus.SWAPPABLE ∧
      findRequest (applyUpTo (cancelPersistSteps reqAB 1000) 2 dbPending) 5 = some reqAB) ∧
    ((findEvent (applyUpTo (rejectPersistSteps reqAB 1000 "no") 1 dbPending) 1).map Slot.status =
        some SlotStatus.SWAPPABLE ∧
      findRequest (applyUpTo (rejectPersistSteps reqAB 1000 "no") 1 dbPending) 5 = some reqAB) := by
  refine ⟨?_, ⟨by decide, by decide⟩, ⟨by decide, by decide⟩, ⟨by decide, by decide⟩⟩
  intro r now msg db k hk
  simp only [acceptPersistSteps, List.length_singleton] at hk ⊢
  interval_cases k
  · left; rfl
  · right; rfl

/-- Witness for the amended Claim C2 theorem at the one possible
nonzero stop point of an accept. -/
theorem c2_only_accept_persists_atomically_witness :
    1 ≤ (acceptPersistSteps reqAB 1000 "ok").length ∧
    (applyUpTo (acceptPersistSteps reqAB 1000 "ok") 1 dbPending = dbPending ∨
      applyUpTo (acceptPersistSteps reqAB 1000 "ok") 1 dbPending =
        applyUpTo (acceptPersistSteps reqAB 1000 "ok")
          (acceptPersistSteps reqAB 1000 "ok").length dbPending) :=
  ⟨by simp [acceptPersistSteps],
    c2_only_accept_persists_atomically.1 reqAB 1000 "ok" dbPending 1
      (by simp [acceptPersistSteps])⟩

/-- Claim C3: the code violates the claimed invariant.  In
dbPastPending, slot 1 started at instant 500, the current instant is
1000, and the slot is frozen by pending request 5; the requester
cancel succeeds and the revert sets slot 1 to SWAPPABLE although its
start has passed. -/
theorem c3_cancel_sets_past_slot_swappable :
    slotPastPendA.startTime < 1000 ∧
    (cancelSwapRequest 1000 dbPastPending 5 10).1 =
      .ok { reqAB with status := ReqStatus.CANCELLED, respondedAt := some 1000 } ∧
    (findEvent (cancelSwapRequest 1000 dbPastPending 5 10).2 1).map
      (fun e => (e.status, e.startTime)) = some (SlotStatus.SWAPPABLE, 500) := by
  exact ⟨by decide, by decide, by decide⟩

/-- Claim C4, counterexample: request 5 in dbExpired is PENDING and
its expiry 500 is past at instant 1000, yet the requester cancel does
not fail with the expiry error: it succeeds and returns the CANCELLED
request. -/
theorem c4_counterexample_cancel_succeeds_when_expired :
    reqExp.status = ReqStatus.PENDING ∧ reqExp.expiresAt < 1000 ∧
    (cancelSwapRequest 1000 dbExpired 5 10).1 =
      .ok { reqExp with status := ReqStatus.CANCELLED, respondedAt := some 1000 } := by
  exact ⟨by decide, by decide, by decide⟩

end SlotSwapper

namespace SlotSwapper

/-! Equational forms of the transition operations under their guards,
shared by several claim theorems. -/

theorem reject_eq (r : SwapRequest) (now : Nat) (msg : String) (db : DB)
    (hpend : r.status = ReqStatus.PENDING) :
    r.reject now msg db =
      (.ok { r with
          status := ReqStatus.REJECTED
          responseMessage := msg
          respondedAt := some now },
        saveRequest (updateEventStatus (updateEventStatus db r.mySlotId SlotStatus.SWAPPABLE)
          r.theirSlotId SlotStatus.SWAPPABLE)
          { r with
            status := ReqStatus.REJECTED
            responseMessage := msg
            respondedAt := some now }) := by
  simp [SwapRequest.reject, hpend]

theorem cancel_eq (r : SwapRequest) (now : Nat) (db : DB)
    (hpend : r.status = ReqStatus.PENDING) :
    r.cancel now db =
      (.ok { r with status := ReqStatus.CANCELLED, respondedAt := some now },
        saveRequest (updateEventStatus (updateEventStatus db r.mySlotId SlotStatus.SWAPPABLE)
          r.theirSlotId SlotStatus.SWAPPABLE)
          { r with status := ReqStatus.CANCELLED, respondedAt := some now }) := by
  simp [SwapRequest.cancel, hpend]

theorem accept_eq (r : SwapRequest) (now : Nat) (msg : String) (db : DB) (a b : Slot)
    (hpend : r.status = ReqStatus.PENDING) (hexp : ¬ r.expiresAt < now)
    (ha : findEvent db r.mySlotId = some a) (hb : findEvent db r.theirSlotId = some b)
    (hva : validEventDoc now a = true) (hvb : validEventDoc now b = true) :
    r.accept now msg db =
      (.ok { r with
          status := ReqStatus.ACCEPTED
          responseMessage := msg
          respondedAt := some now },
        saveRequest (saveEvent (saveEvent db
            { a with
              userId := b.userId
              status := SlotStatus.BUSY
              swapHistory := a.swapHistory ++
                [{ swappedWith := b.userId, swappedAt := now, swapRequestId := r.id }] })
            { b with
              userId := a.userId
              status := SlotStatus.BUSY
              swapHistory := b.swapHistory ++
                [{ swappedWith := a.userId, swappedAt := now, swapRequestId := r.id }] })
          { r with
            status := ReqStatus.ACCEPTED
            responseMessage := msg
            respondedAt := some now }) := by
  have hva2 : validEventDoc now { a with
      userId := b.userId
      status := SlotStatus.BUSY
      swapHistory := a.swapHistory ++
        [{ swappedWith := b.userId, swappedAt := now, swapRequestId := r.id }] } = true := hva
  have hvb2 : validEventDoc now { b with
      userId := a.userId
      status := SlotStatus.BUSY
      swapHistory := b.swapHistory ++
        [{ swappedWith := a.userId, swappedAt := now, swapRequestId := r.id }] } = true := hvb
  simp [SwapRequest.accept, hpend, hexp, ha, hb, hva2, hvb2]

/-- The accept method when either slot no longer passes the Event
save validation (for example its start has passed): the slot saves
throw inside the transaction, which aborts with nothing persisted. -/
theorem accept_eq_invalid (r : SwapRequest) (now : Nat) (msg : String) (db : DB) (a b : Slot)
    (hpend : r.status = ReqStatus.PENDING) (hexp : ¬ r.expiresAt < now)
    (ha : findEvent db r.mySlotId = some a) (hb : findEvent db r.theirSlotId = some b)
    (hinv : validEventDoc now a = false ∨ validEventDoc now b = false) :
    r.accept now msg db = (.error (.internal "Event validation failed"), db) := by
  have hcond : ¬ (validEventDoc now { a with
      userId := b.userId
      status := SlotStatus.BUSY
      swapHistory := a.swapHistory ++
        [{ swappedWith := b.userId, swappedAt := now, swapRequestId := r.id }] } = true ∧
    validEventDoc now { b with
      userId := a.userId
      status := SlotStatus.BUSY
      swapHistory := b.swapHistory ++
        [{ swappedWith := a.userId, swappedAt := now, swapRequestId := r.id }] } = true) := by
    show ¬ (validEventDoc now a = true ∧ validEventDoc now b = true)
    rcases hinv with h | h <;> simp [h]
  simp [SwapRequest.accept, hpend, hexp, ha, hb, hcond]

theorem respond_eq (now : Nat) (db : DB) (rid uid : Nat) (r : SwapRequest) (a b : Slot)
    (acc : Bool) (msg : String)
    (hfind : findRequest db rid = some r) (hto : r.requestedTo = uid)
    (hpend : r.status = ReqStatus.PENDING) (hexp : ¬ r.expiresAt < now)
    (ha : findEvent db r.mySlotId = some a) (hb : findEvent db r.theirSlotId = some b)
    (hsa : a.status = SlotStatus.SWAP_PENDING) (hsb : b.status = SlotStatus.SWAP_PENDING) :
    respondToSwap now db rid uid acc msg =
      if acc then r.accept now msg db else r.reject now msg db := by
  simp [respondToSwap, hfind, hto, hpend, hexp, ha, hb, hsa, hsb]

theorem cancelRoute_eq (now : Nat) (db : DB) (rid : Nat) (r : SwapRequest)
    (hfind : findRequest db rid = some r) (hpend : r.status = ReqStatus.PENDING) :
    cancelSwapRequest now db rid r.requestedBy = r.cancel now db := by
  simp [cancelSwapRequest, hfind, hpend]

end SlotSwapper

namespace SlotSwapper

/-- Claim C9: on a Pending request, reject and cancel return both
referenced slots to SWAPPABLE while leaving every other slot field
(owner included) and every other slot untouched, and set the request
to REJECTED with the response message, or to CANCELLED, each with
respondedAt set and all other request fields unchanged; the cancel
route invoked by the requester performs exactly the cancel
transition. -/
theorem c9_reject_cancel_revert_slots_only :
    ∀ (r : SwapRequest) (now : Nat) (msg : String) (db : DB),
      r.status = ReqStatus.PENDING →
      ((r.reject now msg db).1 = .ok { r with
          status := ReqStatus.REJECTED
          responseMessage := msg
          respondedAt := some now } ∧
        (∀ sid e, findEvent db sid = some e →
          findEvent (r.reject now msg db).2 sid =
            some (if sid = r.mySlotId ∨ sid = r.theirSlotId then
              { e with status := SlotStatus.SWAPPABLE } else e))) ∧
      ((r.cancel now db).1 = .ok { r with
          status := ReqStatus.CANCELLED
          respondedAt := some now } ∧
        (∀ sid e, findEvent db sid = some e →
          findEvent (r.cancel now db).2 sid =
            some (if sid = r.mySlotId ∨ sid = r.theirSlotId then
              { e with status := SlotStatus.SWAPPABLE } else e))) ∧
      (∀ rid, findRequest db rid = some r →
        cancelSwapRequest now db rid r.requestedBy = r.cancel now db) := by
  intro r now msg db hpend
  refine ⟨⟨?_, ?_⟩, ⟨?_, ?_⟩, ?_⟩
  · rw [reject_eq r now msg db hpend]
  · intro sid e he
    rw [reject_eq r now msg db hpend]
    simp only [findEvent_saveRequest, findEvent_double_update, he, Option.map_some']
  · rw [cancel_eq r now db hpend]
  · intro sid e he
    rw [cancel_eq r now db hpend]
    simp only [findEvent_saveRequest, findEvent_double_update, he, Option.map_some']
  · intro rid hfind
    exact cancelRoute_eq now db rid r hfind hpend

/-- Witness for Claim C9 on the concrete pending state dbPending. -/
theorem c9_reject_cancel_revert_slots_only_witness :
    reqAB.status = ReqStatus.PENDING ∧
    (SwapRequest.cancel reqAB 1000 dbPending).1 = .ok { reqAB with
      status := ReqStatus.CANCELLED
      respondedAt := some 1000 } :=
  ⟨by decide,
    ((c9_reject_cancel_revert_slots_only reqAB 1000 "m" dbPending (by decide)).2.1).1⟩

/-- Claim C4, amended: an accept or reject attempt on an expired but
still Pending request fails with the expiry error and nothing is
persisted, while a cancel attempt by the requester is not expiry
guarded: it succeeds, sets the request CANCELLED with respondedAt,
and reverts both slots to SWAPPABLE. -/
theorem c4_expired_blocks_respond_not_cancel :
    ∀ (now : Nat) (db : DB) (rid : Nat) (r : SwapRequest) (msg : String),
      findRequest db rid = some r → r.status = ReqStatus.PENDING → r.expiresAt < now →
      (respondToSwap now db rid r.requestedTo true msg =
        (.error (.badRequest "Request has expired"), db) ∧
       respondToSwap now db rid r.requestedTo false msg =
        (.error (.badRequest "Request has expired"), db)) ∧
      (cancelSwapRequest now db rid r.requestedBy).1 = .ok { r with
        status := ReqStatus.CANCELLED
        respondedAt := some now } ∧
      (∀ e, findEvent (cancelSwapRequest now db rid r.requestedBy).2 r.mySlotId = some e →
        e.status = SlotStatus.SWAPPABLE) ∧
      (∀ e, findEvent (cancelSwapRequest now db rid r.requestedBy).2 r.theirSlotId = some e →
        e.status = SlotStatus.SWAPPABLE) := by
  intro now db rid r msg hfind hpend hexp
  have hroute : cancelSwapRequest now db rid r.requestedBy = r.cancel now db :=
    cancelRoute_eq now db rid r hfind hpend
  refine ⟨⟨?_, ?_⟩, ?_, ?_, ?_⟩
  · simp [respondToSwap, hfind, hpend, hexp]
  · simp [respondToSwap, hfind, hpend, hexp]
  · rw [hroute, cancel_eq r now db hpend]
  · intro e he
    rw [hroute, cancel_eq r now db hpend] at he
    simp only [findEvent_saveRequest, findEvent_double_update] at he
    cases hfe : findEvent db r.mySlotId with
    | none => rw [hfe] at he; cases he
    | some x =>
        rw [hfe] at he
        simp only [Option.map_some', Option.some.injEq] at he
        rw [if_pos (Or.inl trivial)] at he
        rw [← he]
  · intro e he
    rw [hroute, cancel_eq r now db hpend] at he
    simp only [findEvent_saveRequest, findEvent_double_update] at he
    cases hfe : findEvent db r.theirSlotId with
    | none => rw [hfe] at he; cases he
    | some x =>
        rw [hfe] at he
        simp only [Option.map_some', Option.some.injEq] at he
        rw [if_pos (Or.inr trivial)] at he
        rw [← he]

/-- Witness for the amended Claim C4 on the concrete expired state
dbExpired. -/
theorem c4_expired_blocks_respond_not_cancel_witness :
    findRequest dbExpired 5 = some reqExp ∧
    respondToSwap 1000 dbExpired 5 reqExp.requestedTo true "x" =
      (.error (.badRequest "Request has expired"), dbExpired) :=
  ⟨by decide,
    (c4_expired_blocks_respond_not_cancel 1000 dbExpired 5 reqExp "x"
      (by decide) (by decide) (by decide)).1.1⟩

/-- Claim C1, amended: when a Pending, unexpired request is accepted
by its recipient while both referenced (distinct) slots exist in
state SWAP_PENDING and both still pass the Event schema save
validation (in particular both start instants still strictly in the
future), the response route succeeds, the two slots carry each others
former owner and are both BUSY, and the request is ACCEPTED with the
supplied response message and respondedAt set; when either slot fails
that validation — for example because its start has passed — the slot
saves throw inside the transaction and the route fails with the 500
carrying the validation error, persisting nothing. -/
theorem c1_accept_exchanges_owners :
    ∀ (now : Nat) (db : DB) (rid uid : Nat) (r : SwapRequest) (a b : Slot) (msg : String),
      findRequest db rid = some r → r.requestedTo = uid → r.status = ReqStatus.PENDING →
      ¬ r.expiresAt < now →
      findEvent db r.mySlotId = some a → findEvent db r.theirSlotId = some b →
      a.status = SlotStatus.SWAP_PENDING → b.status = SlotStatus.SWAP_PENDING →
      r.mySlotId ≠ r.theirSlotId →
      (validEventDoc now a = true → validEventDoc now b = true →
        ∃ r1 db1, respondToSwap now db rid uid true msg = (.ok r1, db1) ∧
          r1.status = ReqStatus.ACCEPTED ∧ r1.responseMessage = msg ∧
          r1.respondedAt = some now ∧
          (findEvent db1 r.mySlotId).map (fun e => (e.userId, e.status)) =
            some (b.userId, SlotStatus.BUSY) ∧
          (findEvent db1 r.theirSlotId).map (fun e => (e.userId, e.status)) =
            some (a.userId, SlotStatus.BUSY)) ∧
      ((validEventDoc now a = false ∨ validEventDoc now b = false) →
        respondToSwap now db rid uid true msg =
          (.error (.internal "Event validation failed"), db)) := by
  intro now db rid uid r a b msg hfind hto hpend hexp ha hb hsa hsb hne
  have haid : a.id = r.mySlotId := findEvent_id ha
  have hbid : b.id = r.theirSlotId := findEvent_id hb
  constructor
  · intro hva hvb
    rw [respond_eq now db rid uid r a b true msg hfind hto hpend hexp ha hb hsa hsb]
    rw [if_pos rfl, accept_eq r now msg db a b hpend hexp ha hb hva hvb]
    refine ⟨_, _, rfl, rfl, rfl, rfl, ?_, ?_⟩
    · rw [findEvent_saveRequest, findEvent_saveEvent, findEvent_saveEvent, ha]
      simp only [Option.map_some']
      rw [if_pos (show (a.id == a.id) = true by simp)]
      rw [if_neg (show ¬ (a.id == b.id) = true by simp [haid, hbid]; omega)]
    · rw [findEvent_saveRequest, findEvent_saveEvent, findEvent_saveEvent, hb]
      simp only [Option.map_some']
      rw [if_neg (show ¬ (b.id == a.id) = true by simp [haid, hbid]; omega)]
      rw [if_pos (show (b.id == b.id) = true by simp)]
  · intro hinv
    rw [respond_eq now db rid uid r a b true msg hfind hto hpend hexp ha hb hsa hsb]
    rw [if_pos rfl]
    exact accept_eq_invalid r now msg db a b hpend hexp ha hb hinv

/-- Claim C1, counterexample to the original claim: in dbPastPending
request 5 is Pending and unexpired, user 20 is its recipient, and
both referenced slots exist in SWAP_PENDING — every hypothesis of the
claim — yet slot 1 started at instant 500, already past at 1000, so
the slot save validation fails inside the accept transaction and the
response route returns the 500 with nothing persisted instead of
succeeding with exchanged owners. -/
theorem c1_counterexample_accept_fails_on_started_slot :
    findRequest dbPastPending 5 = some reqAB ∧
    reqAB.status = ReqStatus.PENDING ∧ ¬ reqAB.expiresAt < 1000 ∧ reqAB.requestedTo = 20 ∧
    (findEvent dbPastPending 1).map Slot.status = some SlotStatus.SWAP_PENDING ∧
    (findEvent dbPastPending 2).map Slot.status = some SlotStatus.SWAP_PENDING ∧
    slotPastPendA.startTime < 1000 ∧
    respondToSwap 1000 dbPastPending 5 20 true "ok" =
      (.error (.internal "Event validation failed"), dbPastPending) := by
  exact ⟨by decide, by decide, by decide, by decide, by decide, by decide, by decide, by decide⟩

/-- Witness for Claim C1 on the concrete pending state dbPending. -/
theorem c1_accept_exchanges_owners_witness :
    findRequest dbPending 5 = some reqAB ∧
    validEventDoc 1000 slotPendA = true ∧ validEventDoc 1000 slotPendB = true ∧
    (∃ r1 db1, respondToSwap 1000 dbPending 5 20 true "ok" = (.ok r1, db1) ∧
      r1.status = ReqStatus.ACCEPTED ∧ r1.responseMessage = "ok" ∧
      r1.respondedAt = some 1000 ∧
      (findEvent db1 reqAB.mySlotId).map (fun e => (e.userId, e.status)) =
        some (slotPendB.userId, SlotStatus.BUSY) ∧
      (findEvent db1 reqAB.theirSlotId).map (fun e => (e.userId, e.status)) =
        some (slotPendA.userId, SlotStatus.BUSY)) :=
  ⟨by decide, by decide, by decide,
    (c1_accept_exchanges_owners 1000 dbPending 5 20 reqAB slotPendA slotPendB "ok"
      (by decide) (by decide) (by decide) (by decide) (by decide) (by decide)
      (by decide) (by decide) (by decide)).1 (by decide) (by decide)⟩

end SlotSwapper

namespace SlotSwapper

/-- If no pending request exists between a and b in either direction,
then in particular none exists in the same direction, which is what
the unique partial index checks at insert time. -/
theorem sameDirPending_false {db : DB} {a b : Nat}
    (h : existsPendingBetween db a b = false) :
    db.requests.any (fun q => decide (q.status = ReqStatus.PENDING) &&
      q.mySlotId == a && q.theirSlotId == b) = false := by
  rw [existsPendingBetween, List.any_eq_false] at h
  rw [List.any_eq_false]
  intro q hq
  have hx := h q hq
  simp only [Bool.or_eq_true, Bool.and_eq_true, beq_iff_eq, decide_eq_true_eq, not_or] at hx
  simp only [Bool.and_eq_true, beq_iff_eq, decide_eq_true_eq, not_and]
  tauto

/-- The save of a new PENDING request succeeds and performs the
post-save slot freeze when the pre-save validations and the unique
index admit it. -/
theorem saveNew_ok_of_guards (now : Nat) (db : DB) (r : SwapRequest) (ms ts : Slot)
    (ha : findEvent db r.mySlotId = some ms) (hb : findEvent db r.theirSlotId = some ts)
    (h1 : ms.userId = r.requestedBy) (h2 : ts.userId = r.requestedTo)
    (h3 : ms.status = SlotStatus.SWAPPABLE) (h4 : ts.status = SlotStatus.SWAPPABLE)
    (h5 : ¬ (ms.startTime ≤ now ∨ ts.startTime ≤ now))
    (h6 : db.requests.any (fun q => decide (q.status = ReqStatus.PENDING) &&
      q.mySlotId == r.mySlotId && q.theirSlotId == r.theirSlotId) = false)
    (h7 : r.status = ReqStatus.PENDING) :
    saveNewSwapRequest now db r =
      (.ok (), updateEventStatus (updateEventStatus (insertRequest db r) r.mySlotId
        SlotStatus.SWAP_PENDING) r.theirSlotId SlotStatus.SWAP_PENDING) := by
  simp [saveNewSwapRequest, ha, hb, h1, h2, h3, h4, h5, h6, h7]

/-- Inversion of a successful create: every route guard held, and the
result is the fresh PENDING document together with the state in which
it is inserted and both slots are frozen. -/
theorem createSwapRequest_ok_inv
    {now : Nat} {db : DB} {rb a b : Nat} {msg : String} {nid : Nat}
    {r : SwapRequest} {db1 : DB}
    (h : createSwapRequest now db rb a b msg nid = (.ok r, db1)) :
    ∃ ms ts, a ≠ b ∧ findEvent db a = some ms ∧ findEvent db b = some ts ∧
      ms.userId = rb ∧ ts.userId ≠ rb ∧ ms.status = SlotStatus.SWAPPABLE ∧
      ts.status = SlotStatus.SWAPPABLE ∧ now < ms.startTime ∧ now < ts.startTime ∧
      existsPendingBetween db a b = false ∧
      r = { id := nid
            mySlotId := a
            theirSlotId := b
            requestedBy := rb
            requestedTo := ts.userId
            status := ReqStatus.PENDING
            message := msg
            responseMessage := ""
            respondedAt := none
            createdAt := now
            expiresAt := now + 604800000 } ∧
      db1 = updateEventStatus (updateEventStatus (insertRequest db r) a
        SlotStatus.SWAP_PENDING) b SlotStatus.SWAP_PENDING := by
  by_cases hab : a = b
  · rw [createSwapRequest, if_pos hab] at h
    simp at h
  rw [createSwapRequest, if_neg hab] at h
  cases hA : findEvent db a with
  | none => rw [hA] at h; simp at h
  | some ms =>
  cases hB : findEvent db b with
  | none => rw [hA, hB] at h; simp at h
  | some ts =>
  rw [hA, hB] at h
  dsimp only at h
  by_cases h1 : ms.userId = rb
  case neg => rw [if_pos h1] at h; simp at h
  rw [if_neg (not_not_intro h1)] at h
  by_cases h2 : ts.userId = rb
  case pos => rw [if_pos h2] at h; simp at h
  rw [if_neg h2] at h
  by_cases h3 : ms.status = SlotStatus.SWAPPABLE
  case neg => rw [if_pos h3] at h; simp at h
  rw [if_neg (not_not_intro h3)] at h
  by_cases h4 : ts.status = SlotStatus.SWAPPABLE
  case neg => rw [if_pos h4] at h; simp at h
  rw [if_neg (not_not_intro h4)] at h
  by_cases h5 : ms.startTime ≤ now ∨ ts.startTime ≤ now
  case pos => rw [if_pos h5] at h; simp at h
  rw [if_neg h5] at h
  by_cases h6 : existsPendingBetween db a b = true
  case pos => rw [if_pos h6] at h; simp at h
  rw [if_neg h6] at h
  have h6f : existsPendingBetween db a b = false := by simpa using h6
  have hsave := saveNew_ok_of_guards now db
    { id := nid
      mySlotId := a
      theirSlotId := b
      requestedBy := rb
      requestedTo := ts.userId
      status := ReqStatus.PENDING
      message := msg
      responseMessage := ""
      respondedAt := none
      createdAt := now
      expiresAt := now + 604800000 } ms ts
    hA hB h1 rfl h3 h4 h5 (sameDirPending_false h6f) rfl
  try dsimp only at h
  rw [hsave] at h
  try dsimp only at h
  rw [Prod.mk.injEq] at h
  obtain ⟨hr, hdb⟩ := h
  rw [Except.ok.injEq] at hr
  push_neg at h5
  refine ⟨ms, ts, hab, rfl, rfl, h1, h2, h3, h4, h5.1, h5.2, h6f, hr.symm, ?_⟩
  rw [← hr]
  exact hdb.symm

end SlotSwapper

namespace SlotSwapper

/-- The request document a successful create on dbFresh returns. -/
def reqCreated : SwapRequest :=
  { id := 7
    mySlotId := 1
    theirSlotId := 2
    requestedBy := 10
    requestedTo := 20
    status := ReqStatus.PENDING
    message := "hi"
    responseMessage := ""
    respondedAt := none
    createdAt := 1000
    expiresAt := 604801000 }

/-- The persisted state after that create. -/
def dbAfterCreate : DB := (createSwapRequest 1000 dbFresh 10 1 2 "hi" 7).2

/-- Claim C5, counterexample: the unique partial index of the schema
is keyed on the ordered pair (mySlotId, theirSlotId); the state with
a pending request in each direction over the slots 1 and 2 satisfies
the index even though two distinct Pending requests cover the same
unordered pair. -/
theorem c5_counterexample_index_is_ordered :
    pendingPairsOk dbBothDirections.requests = true ∧
    reqAB ∈ dbBothDirections.requests ∧ reqBA ∈ dbBothDirections.requests ∧
    reqAB.status = ReqStatus.PENDING ∧ reqBA.status = ReqStatus.PENDING ∧
    reqBA.mySlotId = reqAB.theirSlotId ∧ reqBA.theirSlotId = reqAB.mySlotId ∧
    reqAB ≠ reqBA := by
  exact ⟨by decide, by decide, by decide, by decide, by decide, by decide, by decide, by decide⟩

/-- Claim C5, amended: at most one Pending request per unordered slot
pair is enforced by the application-level pre-check of the create
handler (a successful create implies no Pending request existed in
either direction, and when one exists the handler fails with the
duplicate 400 response before writing anything), while the
storage-level unique partial index constrains only the ordered pair
(mySlotId, theirSlotId, PENDING). -/
theorem c5_unordered_exclusion_is_app_level :
    (∀ (now : Nat) (db : DB) (requestedBy a b : Nat) (msg : String) (nid : Nat)
      (r : SwapRequest) (db1 : DB),
      createSwapRequest now db requestedBy a b msg nid = (.ok r, db1) →
      existsPendingBetween db a b = false) ∧
    (∀ (now : Nat) (db : DB) (requestedBy a b : Nat) (msg : String) (nid : Nat) (ms ts : Slot),
      a ≠ b → findEvent db a = some ms → findEvent db b = some ts →
      ms.userId = requestedBy → ts.userId ≠ requestedBy →
      ms.status = SlotStatus.SWAPPABLE → ts.status = SlotStatus.SWAPPABLE →
      now < ms.startTime → now < ts.startTime →
      existsPendingBetween db a b = true →
      createSwapRequest now db requestedBy a b msg nid =
        (.error (.badRequest "A pending swap request already exists for these slots"), db)) ∧
    (∀ (l : List SwapRequest), pendingPairsOk l = true →
      ∀ r1 ∈ l, ∀ r2 ∈ l, r1.status = ReqStatus.PENDING → r2.status = ReqStatus.PENDING →
        r1.mySlotId = r2.mySlotId → r1.theirSlotId = r2.theirSlotId → r1 = r2) := by
  refine ⟨?_, ?_, ?_⟩
  · intro now db rb a b msg nid r db1 h
    obtain ⟨ms, ts, _, _, _, _, _, _, _, _, _, h6f, _, _⟩ := createSwapRequest_ok_inv h
    exact h6f
  · intro now db rb a b msg nid ms ts hab hA hB h1 h2 h3 h4 h5 h6 hdup
    have hno : ¬ (ms.startTime ≤ now ∨ ts.startTime ≤ now) := by omega
    simp [createSwapRequest, hab, hA, hB, h1, h2, h3, h4, hno, hdup]
  · intro l
    induction l with
    | nil => intro _ r1 h1; cases h1
    | cons a t ih =>
        intro hl r1 h1 r2 h2 hp1 hp2 hm ht
        simp only [pendingPairsOk, Bool.and_eq_true] at hl
        obtain ⟨hhead, htail⟩ := hl
        cases h1 with
        | head =>
            cases h2 with
            | head => rfl
            | tail _ h2t =>
                rw [if_pos hp1] at hhead
                have hq := List.all_eq_true.mp hhead r2 h2t
                simp [hp2, hm, ht] at hq
        | tail _ h1t =>
            cases h2 with
            | head =>
                rw [if_pos hp2] at hhead
                have hq := List.all_eq_true.mp hhead r1 h1t
                simp [hp1, hm, ht] at hq
            | tail _ h2t => exact ih htail r1 h1t r2 h2t hp1 hp2 hm ht

/-- Witness for the amended Claim C5: the concrete successful create
on dbFresh implies no pending request existed over its pair. -/
theorem c5_unordered_exclusion_is_app_level_witness :
    createSwapRequest 1000 dbFresh 10 1 2 "hi" 7 = (.ok reqCreated, dbAfterCreate) ∧
    existsPendingBetween dbFresh 1 2 = false :=
  ⟨by decide,
    c5_unordered_exclusion_is_app_level.1 1000 dbFresh 10 1 2 "hi" 7 reqCreated dbAfterCreate
      (by decide)⟩

/-- Claim C6: a successful create returns a PENDING request created
now, expiring exactly 7 days (604800000 ms) later, addressed to the
owner of the requested slot at creation time, and leaves both
referenced slots SWAP_PENDING in the resulting state. -/
theorem c6_create_success_postconditions :
    ∀ (now : Nat) (db : DB) (requestedBy a b : Nat) (msg : String) (nid : Nat)
      (r : SwapRequest) (db1 : DB),
      createSwapRequest now db requestedBy a b msg nid = (.ok r, db1) →
      r.status = ReqStatus.PENDING ∧ r.createdAt = now ∧ r.expiresAt = now + 604800000 ∧
      (∃ ts, findEvent db b = some ts ∧ r.requestedTo = ts.userId) ∧
      (findEvent db1 a).map Slot.status = some SlotStatus.SWAP_PENDING ∧
      (findEvent db1 b).map Slot.status = some SlotStatus.SWAP_PENDING := by
  intro now db rb a b msg nid r db1 h
  obtain ⟨ms, ts, hab, hA, hB, h1, h2, h3, h4, h5, h6, h6f, hr, hdb⟩ :=
    createSwapRequest_ok_inv h
  subst hr
  subst hdb
  refine ⟨rfl, rfl, rfl, ⟨ts, hB, rfl⟩, ?_, ?_⟩
  · rw [findEvent_double_update, findEvent_insertRequest, hA]
    simp
  · rw [findEvent_double_update, findEvent_insertRequest, hB]
    simp

/-- Witness for Claim C6 at the concrete create on dbFresh. -/
theorem c6_create_success_postconditions_witness :
    createSwapRequest 1000 dbFresh 10 1 2 "hi" 7 = (.ok reqCreated, dbAfterCreate) ∧
    (findEvent dbAfterCreate 1).map Slot.status = some SlotStatus.SWAP_PENDING :=
  ⟨by decide,
    (c6_create_success_postconditions 1000 dbFresh 10 1 2 "hi" 7 reqCreated dbAfterCreate
      (by decide)).2.2.2.2.1⟩

/-- Witness for Claim C10: the only pending request of dbPending is
addressed to user 20 and the PENDING filter returns it; the theorem
then yields that it is not CANCELLED. -/
theorem c10_incoming_never_returns_cancelled_witness :
    listIncoming 1000 dbPending 20 (some "PENDING") = .ok [reqAB] ∧
    reqAB.status ≠ ReqStatus.CANCELLED :=
  ⟨by decide,
    c10_incoming_never_returns_cancelled.2.2.2 1000 dbPending 20 (some "PENDING") [reqAB]
      (by decide) reqAB (by decide)⟩

end SlotSwapper

namespace SlotSwapper

/-- Claim C7: the create handler fails with the self-swap 400 when
the two slot ids coincide, with 404 when either slot is missing, with
403 when the offered slot is not owned by the requester, and with a
400 when the requested slot belongs to the requester, when either
slot is not SWAPPABLE, or when either start time is not strictly in
the future; in every such case the returned state is the unchanged
input state, so no request is created and neither slot is mutated. -/
theorem c7_create_failure_cases :
    ∀ (now : Nat) (db : DB) (requestedBy a b : Nat) (msg : String) (nid : Nat),
      (a = b → createSwapRequest now db requestedBy a b msg nid =
        (.error (.badRequest "Cannot swap a slot with itself"), db)) ∧
      (a ≠ b → (findEvent db a = none ∨ findEvent db b = none) →
        createSwapRequest now db requestedBy a b msg nid =
          (.error (.notFound "One or both slots not found"), db)) ∧
      (∀ ms ts, a ≠ b → findEvent db a = some ms → findEvent db b = some ts →
        ms.userId ≠ requestedBy →
        createSwapRequest now db requestedBy a b msg nid =
          (.error (.forbidden "You can only swap your own slots"), db)) ∧
      (∀ ms ts, a ≠ b → findEvent db a = some ms → findEvent db b = some ts →
        ms.userId = requestedBy → ts.userId = requestedBy →
        createSwapRequest now db requestedBy a b msg nid =
          (.error (.badRequest "Cannot swap with your own slot"), db)) ∧
      (∀ ms ts, a ≠ b → findEvent db a = some ms → findEvent db b = some ts →
        ms.userId = requestedBy → ts.userId ≠ requestedBy →
        ms.status ≠ SlotStatus.SWAPPABLE →
        createSwapRequest now db requestedBy a b msg nid =
          (.error (.badRequest "Your slot must be marked as swappable"), db)) ∧
      (∀ ms ts, a ≠ b → findEvent db a = some ms → findEvent db b = some ts →
        ms.userId = requestedBy → ts.userId ≠ requestedBy →
        ms.status = SlotStatus.SWAPPABLE → ts.status ≠ SlotStatus.SWAPPABLE →
        createSwapRequest now db requestedBy a b msg nid =
          (.error (.badRequest "Target slot is not available for swapping"), db)) ∧
      (∀ ms ts, a ≠ b → findEvent db a = some ms → findEvent db b = some ts →
        ms.userId = requestedBy → ts.userId ≠ requestedBy →
        ms.status = SlotStatus.SWAPPABLE → ts.status = SlotStatus.SWAPPABLE →
        (ms.startTime ≤ now ∨ ts.startTime ≤ now) →
        createSwapRequest now db requestedBy a b msg nid =
          (.error (.badRequest "Cannot swap past events"), db)) := by
  intro now db rb a b msg nid
  refine ⟨?_, ?_, ?_, ?_, ?_, ?_, ?_⟩
  · intro hab
    simp [createSwapRequest, hab]
  · intro hab hor
    rcases hor with hno | hno
    · simp [createSwapRequest, hab, hno]
    · cases hA : findEvent db a <;> simp [createSwapRequest, hab, hA, hno]
  · intro ms ts hab hA hB h1
    simp [createSwapRequest, hab, hA, hB, h1]
  · intro ms ts hab hA hB h1 h2
    simp [createSwapRequest, hab, hA, hB, h1, h2]
  · intro ms ts hab hA hB h1 h2 h3
    simp [createSwapRequest, hab, hA, hB, h1, h2, h3]
  · intro ms ts hab hA hB h1 h2 h3 h4
    simp [createSwapRequest, hab, hA, hB, h1, h2, h3, h4]
  · intro ms ts hab hA hB h1 h2 h3 h4 h5
    simp [createSwapRequest, hab, hA, hB, h1, h2, h3, h4, h5]

/-- Witness for Claim C7: the self-swap case at a concrete input. -/
theorem c7_create_failure_cases_witness :
    (1 : Nat) = 1 ∧
    createSwapRequest 1000 dbFresh 10 1 1 "hi" 7 =
      (.error (.badRequest "Cannot swap a slot with itself"), dbFresh) :=
  ⟨rfl, (c7_create_failure_cases 1000 dbFresh 10 1 1 "hi" 7).1 rfl⟩

end SlotSwapper

namespace SlotSwapper

/-- On a frozen slot every PUT outcome is an error (whatever the
caller) and the state is unchanged. -/
theorem putEventRoute_frozen (now : Nat) (db : DB) (uid eid : Nat) (u : UpdateData)
    (e : Slot) (hfind : findEvent db eid = some e)
    (hsp : e.status = SlotStatus.SWAP_PENDING) :
    (putEventRoute now db uid eid u).2 = db ∧
    ∃ er, (putEventRoute now db uid eid u).1 = .error er := by
  rw [putEventRoute, hfind]
  dsimp only
  by_cases ho : e.userId = uid
  · rw [if_neg (not_not_intro ho)]
    by_cases hv : validUpdatePayload now u = false
    · rw [if_pos hv]
      exact ⟨rfl, _, rfl⟩
    · rw [if_neg hv, if_pos hsp]
      exact ⟨rfl, _, rfl⟩
  · rw [if_pos ho]
    exact ⟨rfl, _, rfl⟩

/-- Every PUT leaves the state unchanged or saves the updated form of
the addressed slot. -/
theorem putEventRoute_snd (now : Nat) (db : DB) (uid eid : Nat) (u : UpdateData) :
    (putEventRoute now db uid eid u).2 = db ∨
    ∃ f, findEvent db eid = some f ∧
      (putEventRoute now db uid eid u).2 = saveEvent db (applyUpdate f u) := by
  rw [putEventRoute]
  cases hf : findEvent db eid with
  | none => left; rfl
  | some f =>
      dsimp only
      split
      · left; rfl
      split
      · left; rfl
      split
      · left; rfl
      split
      · split
        · left; rfl
        split
        · left; rfl
        split
        · left; rfl
        · right; exact ⟨f, rfl, rfl⟩
      · split
        · left; rfl
        · right; exact ⟨f, rfl, rfl⟩

/-- On a frozen slot every DELETE outcome is an error and the state
is unchanged. -/
theorem deleteEventRoute_frozen (db : DB) (uid eid : Nat) (e : Slot)
    (hfind : findEvent db eid = some e) (hsp : e.status = SlotStatus.SWAP_PENDING) :
    (deleteEventRoute db uid eid).2 = db ∧
    ∃ er, (deleteEventRoute db uid eid).1 = .error er := by
  rw [deleteEventRoute, hfind]
  dsimp only
  by_cases ho : e.userId = uid
  · rw [if_neg (not_not_intro ho), if_pos hsp]
    exact ⟨rfl, _, rfl⟩
  · rw [if_pos ho]
    exact ⟨rfl, _, rfl⟩

/-- Every DELETE leaves the state unchanged or removes the addressed
slot. -/
theorem deleteEventRoute_snd (db : DB) (uid eid : Nat) :
    (deleteEventRoute db uid eid).2 = db ∨
    (deleteEventRoute db uid eid).2 = removeEvent db eid := by
  rw [deleteEventRoute]
  cases hf : findEvent db eid with
  | none => left; rfl
  | some f =>
      dsimp only
      split
      · left; rfl
      split
      · left; rfl
      · right; rfl

/-- On a frozen slot every PATCH outcome is an error and the state is
unchanged. -/
theorem patchEventStatusRoute_frozen (now : Nat) (db : DB) (uid eid : Nat)
    (ps : PatchStatus) (e : Slot) (hfind : findEvent db eid = some e)
    (hsp : e.status = SlotStatus.SWAP_PENDING) :
    (patchEventStatusRoute now db uid eid ps).2 = db ∧
    ∃ er, (patchEventStatusRoute now db uid eid ps).1 = .error er := by
  rw [patchEventStatusRoute, hfind]
  dsimp only
  by_cases ho : e.userId = uid
  · rw [if_neg (not_not_intro ho), if_pos hsp]
    exact ⟨rfl, _, rfl⟩
  · rw [if_pos ho]
    exact ⟨rfl, _, rfl⟩

/-- Every PATCH leaves the state unchanged or saves the addressed
slot with a validated (BUSY or SWAPPABLE) status. -/
theorem patchEventStatusRoute_snd (now : Nat) (db : DB) (uid eid : Nat) (ps : PatchStatus) :
    (patchEventStatusRoute now db uid eid ps).2 = db ∨
    ∃ f, findEvent db eid = some f ∧
      (patchEventStatusRoute now db uid eid ps).2 =
        saveEvent db { f with status := ps.toSlotStatus } := by
  rw [patchEventStatusRoute]
  cases hf : findEvent db eid with
  | none => left; rfl
  | some f =>
      dsimp only
      split
      · left; rfl
      split
      · left; rfl
      split
      · left; rfl
      split
      · left; rfl
      · right; exact ⟨f, rfl, rfl⟩

/-- Every save of a new PENDING request leaves the state unchanged
or inserts the document and freezes its two slots. -/
theorem saveNewSwapRequest_snd (now : Nat) (db : DB) (r : SwapRequest)
    (hp : r.status = ReqStatus.PENDING) :
    (saveNewSwapRequest now db r).2 = db ∨
    (saveNewSwapRequest now db r).2 =
      updateEventStatus (updateEventStatus (insertRequest db r) r.mySlotId
        SlotStatus.SWAP_PENDING) r.theirSlotId SlotStatus.SWAP_PENDING := by
  rw [saveNewSwapRequest]
  cases hA : findEvent db r.mySlotId with
  | none => left; rfl
  | some ms =>
  cases hB : findEvent db r.theirSlotId with
  | none => left; rfl
  | some ts =>
  dsimp only
  split
  · left; rfl
  split
  · left; rfl
  split
  · left; rfl
  split
  · left; rfl
  split
  · left; rfl
  split
  · left; rfl
  right
  rfl

/-- Every create leaves the state unchanged or inserts the new
request and freezes its two slots. -/
theorem createSwapRequest_snd (now : Nat) (db : DB) (rb a b : Nat) (msg : String) (nid : Nat) :
    (createSwapRequest now db rb a b msg nid).2 = db ∨
    ∃ r, (createSwapRequest now db rb a b msg nid).2 =
      updateEventStatus (updateEventStatus (insertRequest db r) a
        SlotStatus.SWAP_PENDING) b SlotStatus.SWAP_PENDING := by
  rw [createSwapRequest]
  by_cases hab : a = b
  · left; rw [if_pos hab]
  rw [if_neg hab]
  cases hA : findEvent db a with
  | none => left; rfl
  | some ms =>
  cases hB : findEvent db b with
  | none => left; rfl
  | some ts =>
  dsimp only
  split
  · left; rfl
  split
  · left; rfl
  split
  · left; rfl
  split
  · left; rfl
  split
  · left; rfl
  split
  · left; rfl
  try dsimp only
  cases hres : (saveNewSwapRequest now db
    { id := nid
      mySlotId := a
      theirSlotId := b
      requestedBy := rb
      requestedTo := ts.userId
      status := ReqStatus.PENDING
      message := msg
      responseMessage := ""
      respondedAt := none
      createdAt := now
      expiresAt := now + 604800000 }).1 with
  | ok u =>
      rcases saveNewSwapRequest_snd now db
        { id := nid
          mySlotId := a
          theirSlotId := b
          requestedBy := rb
          requestedTo := ts.userId
          status := ReqStatus.PENDING
          message := msg
          responseMessage := ""
          respondedAt := none
          createdAt := now
          expiresAt := now + 604800000 } rfl with hs | hs
      · exact Or.inl hs
      · exact Or.inr ⟨_, hs⟩
  | error er =>
      rcases saveNewSwapRequest_snd now db
        { id := nid
          mySlotId := a
          theirSlotId := b
          requestedBy := rb
          requestedTo := ts.userId
          status := ReqStatus.PENDING
          message := msg
          responseMessage := ""
          respondedAt := none
          createdAt := now
          expiresAt := now + 604800000 } rfl with hs | hs
      · exact Or.inl hs
      · exact Or.inr ⟨_, hs⟩

end SlotSwapper

namespace SlotSwapper

/-- Claim C8: a slot frozen in SWAP_PENDING cannot be updated,
deleted or status-changed through the owner-facing event endpoints
(each fails with a 400 error and leaves the state unchanged), and
under every operation of the system other than the response (accept
or reject) and cancel handlers an existing SWAP_PENDING slot is still
present and still SWAP_PENDING afterwards: only the negotiator
transitions take a slot out of SWAP_PENDING. -/
theorem c8_swap_pending_freeze :
    (∀ (now : Nat) (db : DB) (eid : Nat) (e : Slot) (u : UpdateData) (ps : PatchStatus),
      findEvent db eid = some e → e.status = SlotStatus.SWAP_PENDING →
      ((∃ m, (putEventRoute now db e.userId eid u).1 = .error (.badRequest m)) ∧
        (putEventRoute now db e.userId eid u).2 = db) ∧
      ((deleteEventRoute db e.userId eid).1 =
          .error (.badRequest "Cannot delete event while swap is pending") ∧
        (deleteEventRoute db e.userId eid).2 = db) ∧
      ((patchEventStatusRoute now db e.userId eid ps).1 =
          .error (.badRequest "Cannot change status while swap is pending") ∧
        (patchEventStatusRoute now db e.userId eid ps).2 = db)) ∧
    (∀ (now : Nat) (db : DB) (op : Op) (sid : Nat) (e : Slot),
      findEvent db sid = some e → e.status = SlotStatus.SWAP_PENDING →
      op.isNegotiatorResolution = false →
      ∃ e1, findEvent (step now db op) sid = some e1 ∧
        e1.status = SlotStatus.SWAP_PENDING) := by
  constructor
  · intro now db eid e u ps hfind hsp
    refine ⟨⟨?_, ?_⟩, ⟨?_, ?_⟩, ⟨?_, ?_⟩⟩
    · rw [putEventRoute, hfind]
      try dsimp only
      rw [if_neg (not_not_intro rfl)]
      by_cases hv : validUpdatePayload now u = false
      · rw [if_pos hv]
        exact ⟨_, rfl⟩
      · rw [if_neg hv, if_pos hsp]
        exact ⟨_, rfl⟩
    · exact (putEventRoute_frozen now db e.userId eid u e hfind hsp).1
    · rw [deleteEventRoute, hfind]
      try dsimp only
      rw [if_neg (not_not_intro rfl), if_pos hsp]
    · exact (deleteEventRoute_frozen db e.userId eid e hfind hsp).1
    · rw [patchEventStatusRoute, hfind]
      try dsimp only
      rw [if_neg (not_not_intro rfl), if_pos hsp]
    · exact (patchEventStatusRoute_frozen now db e.userId eid ps e hfind hsp).1
  · intro now db op sid e hfind hsp hiso
    cases op with
    | respond rid uid acc m => simp [Op.isNegotiatorResolution] at hiso
    | cancelReq rid uid => simp [Op.isNegotiatorResolution] at hiso
    | createReq rb a c m n =>
        rcases createSwapRequest_snd now db rb a c m n with hdb | ⟨rr, hdb⟩
        · refine ⟨e, ?_, hsp⟩
          show findEvent (createSwapRequest now db rb a c m n).2 sid = some e
          rw [hdb]
          exact hfind
        · by_cases hm : sid = a ∨ sid = c
          · refine ⟨{ e with status := SlotStatus.SWAP_PENDING }, ?_, rfl⟩
            show findEvent (createSwapRequest now db rb a c m n).2 sid =
              some { e with status := SlotStatus.SWAP_PENDING }
            rw [hdb, findEvent_double_update, findEvent_insertRequest, hfind]
            simp only [Option.map_some']
            rw [if_pos hm]
          · refine ⟨e, ?_, hsp⟩
            show findEvent (createSwapRequest now db rb a c m n).2 sid = some e
            rw [hdb, findEvent_double_update, findEvent_insertRequest, hfind]
            simp only [Option.map_some']
            rw [if_neg hm]
    | putEvent uid eid u =>
        by_cases heq : eid = sid
        · have hfind2 : findEvent db eid = some e := by rw [heq]; exact hfind
          refine ⟨e, ?_, hsp⟩
          show findEvent (putEventRoute now db uid eid u).2 sid = some e
          rw [(putEventRoute_frozen now db uid eid u e hfind2 hsp).1]
          exact hfind
        · rcases putEventRoute_snd now db uid eid u with hdb | ⟨f, hf, hdb⟩
          · refine ⟨e, ?_, hsp⟩
            show findEvent (putEventRoute now db uid eid u).2 sid = some e
            rw [hdb]
            exact hfind
          · refine ⟨e, ?_, hsp⟩
            have hcond : ¬ (e.id == (applyUpdate f u).id) = true := by
              have h1 : e.id = sid := findEvent_id hfind
              have h2 : f.id = eid := findEvent_id hf
              simp [applyUpdate, h1, h2]
              omega
            show findEvent (putEventRoute now db uid eid u).2 sid = some e
            rw [hdb, findEvent_saveEvent, hfind]
            simp only [Option.map_some']
            rw [if_neg hcond]
    | delEvent uid eid =>
        by_cases heq : eid = sid
        · have hfind2 : findEvent db eid = some e := by rw [heq]; exact hfind
          refine ⟨e, ?_, hsp⟩
          show findEvent (deleteEventRoute db uid eid).2 sid = some e
          rw [(deleteEventRoute_frozen db uid eid e hfind2 hsp).1]
          exact hfind
        · rcases deleteEventRoute_snd db uid eid with hdb | hdb
          · refine ⟨e, ?_, hsp⟩
            show findEvent (deleteEventRoute db uid eid).2 sid = some e
            rw [hdb]
            exact hfind
          · refine ⟨e, ?_, hsp⟩
            show findEvent (deleteEventRoute db uid eid).2 sid = some e
            rw [hdb, findEvent_removeEvent db eid sid (fun hc => heq hc.symm)]
            exact hfind
    | patchEventStatus uid eid ps =>
        by_cases heq : eid = sid
        · have hfind2 : findEvent db eid = some e := by rw [heq]; exact hfind
          refine ⟨e, ?_, hsp⟩
          show findEvent (patchEventStatusRoute now db uid eid ps).2 sid = some e
          rw [(patchEventStatusRoute_frozen now db uid eid ps e hfind2 hsp).1]
          exact hfind
        · rcases patchEventStatusRoute_snd now db uid eid ps with hdb | ⟨f, hf, hdb⟩
          · refine ⟨e, ?_, hsp⟩
            show findEvent (patchEventStatusRoute now db uid eid ps).2 sid = some e
            rw [hdb]
            exact hfind
          · refine ⟨e, ?_, hsp⟩
            have hcond : ¬ (e.id == ({ f with status := ps.toSlotStatus } : Slot).id) = true := by
              have h1 : e.id = sid := findEvent_id hfind
              have h2 : f.id = eid := findEvent_id hf
              simp [h1, h2]
              omega
            show findEvent (patchEventStatusRoute now db uid eid ps).2 sid = some e
            rw [hdb, findEvent_saveEvent, hfind]
            simp only [Option.map_some']
            rw [if_neg hcond]

/-- Witness for Claim C8 on the frozen slot 1 of dbPending. -/
theorem c8_swap_pending_freeze_witness :
    findEvent dbPending 1 = some slotPendA ∧
    (deleteEventRoute dbPending slotPendA.userId 1).1 =
      .error (.badRequest "Cannot delete event while swap is pending") :=
  ⟨by decide,
    ((c8_swap_pending_freeze.1 1000 dbPending 1 slotPendA {} PatchStatus.BUSY
      (by decide) (by decide)).2.1).1⟩

end SlotSwapper
